import Mathlib

/-!
Verification development for the `AS3` schema compiler in `Granite.py`.

`AS3` normalizes a raw declarative schema into a canonical `Struct` dictionary
(`AS3.Struct_` and the per-type `Struct_<Type>` methods), then emits the text of
a Python validation function (`AS3.Python`, `AS3.Python_` and the per-type
`Python_<Type>` methods), `exec`s it (`AS3.Compile`) and runs it (`AS3.__call__`).

This file embeds those semantics shallowly:

* `PyVal` models the Python values flowing through the generated code
  (None, the `Undefined` sentinel, bools, ints, strings, lists, dicts, sets).
* `Struct` / `Fields` model the canonical schema-node tree produced by
  `AS3.Struct_`.  The embedding covers the type tags `Type`, `Boolean`,
  `Integer`, `Enum`, `String`, `Email`, `Object`, `Map`, `Set` and `List`.
  `Decimal` and `Float` are outside the embedded universe: their `Struct_`
  handlers mirror `Struct_Integer`'s bound handling verbatim, and their
  generated code references the name `Decimal` which the generated function's
  namespace never imports.
* `Python_` (with `PythonHandler` and the loop helpers) is the denotation of
  the code emitted by `AS3.Python_` / `Python_<Type>`: a total function from a
  node, an input value, the current output-variable value and the accumulated
  error list to the updated error list and output-variable value.  Inside the
  embedded universe every fault the generated code raises is a `ValueError` or
  a `TypeError` (modelled by `PyErr`), exactly the classes the generated
  `except (ValueError, TypeError)` clause catches.
* Regular-expression matching (`re.match`, used only by `+Regex` checks) is a
  parameter `rm` of the execution functions, so every theorem below holds for
  every matcher.
* `Struct_` (the normalizer) is defined with an explicit recursion budget
  `fuel`; the budget is an artifact of the embedding (the Python original
  recurses on a finite schema tree) and every concrete schema below is
  normalized with a sufficient budget.

Python builtin behaviour (`int()`, `str()`, truthiness, `in`, dict/set
operations) is modelled on the fragment these values exercise; `repr` of
strings is modelled without escape processing, and dict equality is modelled
as ordered entry equality (never reached through hashable-key paths).
-/

namespace Granite

/-- Model of the Python values the generated validation code manipulates:
`None`, the module's `Undefined` sentinel (Granite.py line 79), booleans,
integers, strings, lists, dicts (insertion-ordered key/value pairs, also used
for the `aadict` subclass) and sets (insertion-ordered distinct elements). -/
inductive PyVal where
  | vNone
  | undefined
  | vBool (b : Bool)
  | vInt (n : Int)
  | vStr (s : String)
  | vList (xs : List PyVal)
  | vDict (entries : List (PyVal × PyVal))
  | vSet (xs : List PyVal)

/-- `x is None`, the identity test the generated code performs against the
`None` singleton. -/
def PyVal.isNone : PyVal → Bool
  | .vNone => true
  | _ => false

/-- Python type name of a value, as used in builtin error messages. -/
def pyTypeName : PyVal → String
  | .vNone => "NoneType"
  | .undefined => "Undefined"
  | .vBool _ => "bool"
  | .vInt _ => "int"
  | .vStr _ => "str"
  | .vList _ => "list"
  | .vDict _ => "dict"
  | .vSet _ => "set"

mutual
/-- Model of Python `==` on the embedded values.  Booleans compare equal to
their integer values (`True == 1`); `Undefined` has no `__eq__`, so it is equal
only to itself; dict comparison is approximated by ordered entry equality
(dict operands never reach the `==` sites of the generated code, whose keys
are hashable). -/
def pyEq : PyVal → PyVal → Bool
  | .vNone, .vNone => true
  | .undefined, .undefined => true
  | .vBool a, .vBool b => a == b
  | .vBool a, .vInt n => (if a then (1 : Int) else 0) == n
  | .vInt n, .vBool a => n == (if a then (1 : Int) else 0)
  | .vInt a, .vInt b => a == b
  | .vStr a, .vStr b => a == b
  | .vList a, .vList b => pyEqList a b
  | .vSet a, .vSet b => pyEqList a b
  | .vDict a, .vDict b => pyEqPairs a b
  | _, _ => false

/-- Pointwise list equality for `pyEq`. -/
def pyEqList : List PyVal → List PyVal → Bool
  | [], [] => true
  | a :: as_, b :: bs => pyEq a b && pyEqList as_ bs
  | _, _ => false

/-- Pointwise key/value pair list equality for `pyEq`. -/
def pyEqPairs : List (PyVal × PyVal) → List (PyVal × PyVal) → Bool
  | [], [] => true
  | (ka, va) :: as_, (kb, vb) :: bs => pyEq ka kb && pyEq va vb && pyEqPairs as_ bs
  | _, _ => false
end

/-- Python truthiness (`bool(x)`); `Undefined.__bool__` returns `False`
(Granite.py line 91). -/
def pyBool : PyVal → Bool
  | .vNone => false
  | .undefined => false
  | .vBool b => b
  | .vInt n => n != 0
  | .vStr s => s != ""
  | .vList xs => !xs.isEmpty
  | .vDict es => !es.isEmpty
  | .vSet xs => !xs.isEmpty

/-- Hashability: containers are unhashable, scalars and the sentinel are
hashable. -/
def pyHashable : PyVal → Bool
  | .vList _ => false
  | .vDict _ => false
  | .vSet _ => false
  | _ => true

mutual
/-- Model of Python `repr` on the embedded values.  String repr is modelled as
the string between single quotes, without escape processing. -/
def pyRepr : PyVal → String
  | .vNone => "None"
  | .undefined => "Undefined"
  | .vBool b => if b then "True" else "False"
  | .vInt n => toString n
  | .vStr s => "\x27" ++ s ++ "\x27"
  | .vList xs => "[" ++ pyReprList xs ++ "]"
  | .vDict es => "\x7b" ++ pyReprPairs es ++ "\x7d"
  | .vSet xs => if xs.isEmpty then "set()" else "\x7b" ++ pyReprList xs ++ "\x7d"

/-- Comma-joined reprs of a list of values. -/
def pyReprList : List PyVal → String
  | [] => ""
  | [x] => pyRepr x
  | x :: xs => pyRepr x ++ ", " ++ pyReprList xs

/-- Comma-joined `key: value` reprs of dict entries. -/
def pyReprPairs : List (PyVal × PyVal) → String
  | [] => ""
  | [(k, v)] => pyRepr k ++ ": " ++ pyRepr v
  | (k, v) :: es => pyRepr k ++ ": " ++ pyRepr v ++ ", " ++ pyReprPairs es
end

/-- Model of Python `str(x)`: identity on strings, `repr` otherwise (for the
embedded values `str` and `repr` agree off strings). -/
def pyStr : PyVal → String
  | .vStr s => s
  | v => pyRepr v

/-- The exception classes the generated code can raise from coercion and
constraint steps — exactly the classes its `except (ValueError, TypeError)`
clause catches (Granite.py line 668). -/
inductive PyErr where
  | valueError (msg : String)
  | typeError (msg : String)
  deriving Repr, DecidableEq

/-- `str(e)` of a caught exception: its message. -/
def PyErr.msg : PyErr → String
  | .valueError m => m
  | .typeError m => m

/-- `s.endswith("?")`, computed on the character list. -/
def endsWithQmark (s : String) : Bool :=
  s.data.getLast? == some '?'

/-- `s.removesuffix("?")` under an `endswith` guard: drop the last
character. -/
def dropLastChar (s : String) : String :=
  ⟨s.data.dropLast⟩

/-- Python `str.strip()` with no argument: remove leading and trailing
whitespace. -/
def pyStrip (s : String) : String :=
  ⟨((s.data.dropWhile Char.isWhitespace).reverse.dropWhile Char.isWhitespace).reverse⟩

/-- `k.startswith("+")`, computed on the character list. -/
def startsWithPlus (k : String) : Bool :=
  match k.data with
  | '+' :: _ => true
  | _ => false

/-- Decimal digits to a natural number, if the list is nonempty and all
digits. -/
def pyDigits (cs : List Char) : Option Nat :=
  if cs ≠ [] ∧ cs.all Char.isDigit then
    some (cs.foldl (fun acc c => 10 * acc + (c.toNat - 48)) 0)
  else none

/-- Model of Python `int(x)`: ints pass through, bools map to 0/1, strings are
parsed after stripping whitespace (optional sign, then digits), everything
else is a `TypeError`.  The `ValueError` message embeds the original string
between quotes, modelling `repr` without escapes. -/
def pyInt : PyVal → Except PyErr Int
  | .vBool b => .ok (if b then 1 else 0)
  | .vInt n => .ok n
  | .vStr s =>
    let res : Option Int :=
      match (pyStrip s).toList with
      | '-' :: rest => (pyDigits rest).map (fun n => -(n : Int))
      | '+' :: rest => (pyDigits rest).map Int.ofNat
      | cs => (pyDigits cs).map Int.ofNat
    match res with
    | some n => .ok n
    | none => .error (.valueError ("invalid literal for int() with base 10: \x27" ++ s ++ "\x27"))
  | v => .error (.typeError ("int() argument must be a string, a bytes-like object or a real number, not \x27" ++ pyTypeName v ++ "\x27"))

/-- `isinstance(x, collections.abc.Mapping)`: dicts (including `aadict`). -/
def isMapping : PyVal → Bool
  | .vDict _ => true
  | _ => false

/-- `isinstance(x, collections.abc.Iterable)` together with the iteration
order: lists and sets yield their elements, strings their characters, dicts
their keys. -/
def pyIter : PyVal → Option (List PyVal)
  | .vList xs => some xs
  | .vSet xs => some xs
  | .vStr s => some (s.toList.map (fun c => .vStr (String.singleton c)))
  | .vDict es => some (es.map (·.1))
  | _ => none

/-- Python dict `.get(name)` on the entries: first entry whose key compares
`==` to the name, `None` when absent. -/
def dictGet : List (PyVal × PyVal) → PyVal → PyVal
  | [], _ => .vNone
  | (k0, v0) :: rest, k => if pyEq k0 k then v0 else dictGet rest k

/-- `d[k] = v` on dict entries: replace the value of the first `==`-equal key
(Python keeps the original key object and position), else append. -/
def dictSet : List (PyVal × PyVal) → PyVal → PyVal → List (PyVal × PyVal)
  | [], k, v => [(k, v)]
  | (k0, v0) :: rest, k, v =>
    if pyEq k0 k then (k0, v) :: rest else (k0, v0) :: dictSet rest k v

/-- `d[k] = v` where the key may be an arbitrary computed value: unhashable
keys raise `TypeError` (reached by `Python_Map`'s `vo[key] = value`). -/
def dictSetChecked (es : List (PyVal × PyVal)) (k v : PyVal) : Except PyErr (List (PyVal × PyVal)) :=
  if pyHashable k then .ok (dictSet es k v)
  else .error (.typeError ("unhashable type: \x27" ++ pyTypeName k ++ "\x27"))

/-- `s.add(v)` on set elements: unhashable elements raise `TypeError`,
duplicates (by `==`) collapse keeping the first inserted element. -/
def setAdd (xs : List PyVal) (v : PyVal) : Except PyErr (List PyVal) :=
  if pyHashable v then
    if xs.any (fun w => pyEq w v) then .ok xs else .ok (xs ++ [v])
  else .error (.typeError ("unhashable type: \x27" ++ pyTypeName v ++ "\x27"))

/-- Boolean substring test used to model `in` on strings. -/
def substrB (needle hay : String) : Bool :=
  (hay.toList.tails).any (fun t => needle.toList.isPrefixOf t)

/-- Model of Python `x in container` as used by `Python_Enum`'s membership
check: lists/sets compare elements, dicts compare keys, strings test
substrings, everything else raises `TypeError`. -/
def pyIn (x container : PyVal) : Except PyErr Bool :=
  match container with
  | .vList ys => .ok (ys.any (fun y => pyEq y x))
  | .vSet ys => .ok (ys.any (fun y => pyEq y x))
  | .vDict es => .ok (es.any (fun kv => pyEq kv.1 x))
  | .vStr s =>
    match x with
    | .vStr sub => .ok (substrB sub s)
    | _ => .error (.typeError "\x27in <string>\x27 requires string as left operand")
  | _ => .error (.typeError ("argument of type \x27" ++ pyTypeName container ++ "\x27 is not iterable"))

mutual
/-- Canonical schema node, the result of `AS3.Struct_` (Granite.py lines
609-645) restricted to the embedded type tags.  Every node carries `+None`
(nullable) and `+Default` (`none` models Python `None`, i.e. no default, the
condition tested by `Struct['+Default'] is not None` at line 655); the
type-specific attributes mirror the `Struct_<Type>` handlers.  Attribute
order inside each constructor follows the source's assignment order (for
`Integer` and `List`, `+MaxValue`/`+MaxLength` before `+MinValue`/
`+MinLength`). -/
inductive Struct where
  | sType (nullable : Bool) (dflt : Option PyVal)
  | sBoolean (nullable : Bool) (dflt : Option PyVal)
  | sInteger (nullable : Bool) (dflt : Option PyVal) (maxValue minValue : Option Int)
  | sEnum (nullable : Bool) (dflt : Option PyVal) (values : PyVal)
  | sString (nullable : Bool) (dflt : Option PyVal) (maxLength minLength : Option Int) (strip : Option Bool) (regex : Option String)
  | sEmail (nullable : Bool) (dflt : Option PyVal) (maxLength minLength : Option Int) (strip : Option Bool) (regex : Option String)
  | sObject (nullable : Bool) (dflt : Option PyVal) (extra : Option Bool) (fields : Fields)
  | sMap (nullable : Bool) (dflt : Option PyVal) (keyType valueType : Struct)
  | sSet (nullable : Bool) (dflt : Option PyVal) (valueType : Struct)
  | sList (nullable : Bool) (dflt : Option PyVal) (length maxLength minLength : Option Int) (valueType : Struct)

/-- Ordered field-name/child-node list of an `Object` node. -/
inductive Fields where
  | fnil
  | fcons (name : String) (s : Struct) (rest : Fields)
end

/-- The node's `+None` attribute. -/
def Struct.nullable : Struct → Bool
  | .sType n _ => n
  | .sBoolean n _ => n
  | .sInteger n _ _ _ => n
  | .sEnum n _ _ => n
  | .sString n _ _ _ _ _ => n
  | .sEmail n _ _ _ _ _ => n
  | .sObject n _ _ _ => n
  | .sMap n _ _ _ => n
  | .sSet n _ _ => n
  | .sList n _ _ _ _ _ => n

/-- The node's `+Default` attribute (`none` models Python `None`). -/
def Struct.dflt : Struct → Option PyVal
  | .sType _ d => d
  | .sBoolean _ d => d
  | .sInteger _ d _ _ => d
  | .sEnum _ d _ => d
  | .sString _ d _ _ _ _ => d
  | .sEmail _ d _ _ _ _ => d
  | .sObject _ d _ _ => d
  | .sMap _ d _ _ => d
  | .sSet _ d _ => d
  | .sList _ d _ _ _ _ => d

/-- Field names of an `Object` node, in declaration order. -/
def Fields.names : Fields → List String
  | .fnil => []
  | .fcons name _ rest => name :: rest.names

/-- Join strings with a separator (`sep.join(...)`), computed
structurally. -/
def joinWith (sep : String) : List String → String
  | [] => ""
  | [s] => s
  | s :: rest => s ++ sep ++ joinWith sep rest

/-- `'/'.join(StructPath)`, the diagnostic path string. -/
def joinPath (p : List String) : String := joinWith "/" p

/-- One `(Path, Message, Key, Value)` record appended to the shared error
list by the generated `except` clause (Granite.py line 669). -/
structure ErrRec where
  path : String
  msg : String
  key : PyVal
  value : PyVal

/-- What the generator passes as `KeyVar` / `ValueVar` to `Python_`: the
literal `None`, the name of a variable distinct from the child's input
variable (whose value is therefore fixed at the call), or the child's own
input variable `vi<depth>` (whose value the child's default substitution can
rewrite before an exception is raised). -/
inductive RecArg where
  | noneLit
  | val (v : PyVal)
  | selfVi

/-- Value of a `KeyVar`/`ValueVar` slot at exception time, given the current
value of the child's input variable. -/
def resolveArg : RecArg → PyVal → PyVal
  | .noneLit, _ => .vNone
  | .val v, _ => v
  | .selfVi, vi => vi

/-- Build the record the generated `except` clause appends. -/
def mkRec (p : List String) (msg : String) (kv vv : RecArg) (vi : PyVal) : ErrRec :=
  ⟨joinPath p, msg, resolveArg kv vi, resolveArg vv vi⟩

/-- Denotation of the code emitted by `Python_Type`: passthrough. -/
def Python_Type (vi : PyVal) : PyVal × Option PyErr := (vi, none)

/-- Denotation of the code emitted by `Python_Boolean`: truthy coercion. -/
def Python_Boolean (vi : PyVal) : PyVal × Option PyErr := (.vBool (pyBool vi), none)

/-- Denotation of the code emitted by `Python_Integer` (Granite.py lines
690-691): `vo = int(vi)` and nothing else — no `+MinValue`/`+MaxValue`
comparison is emitted.  On failure the output variable keeps its prior
value. -/
def Python_Integer (vi vo : PyVal) : PyVal × Option PyErr :=
  match pyInt vi with
  | .ok n => (.vInt n, none)
  | .error e => (vo, some e)

/-- Denotation of the code emitted by `Python_Enum`: `vo = vi`, then raise
`ValueError` when `vo not in Values` (the membership test itself may raise
`TypeError` on non-container `Values`; either way `vo` was already
assigned). -/
def Python_Enum (values : PyVal) (vi : PyVal) : PyVal × Option PyErr :=
  match pyIn vi values with
  | .ok true => (vi, none)
  | .ok false => (vi, some (.valueError ("Value must be one of " ++ pyRepr values)))
  | .error e => (vi, some e)

/-- Denotation of the code emitted by `Python_String` (Granite.py lines
722-738): string coercion, strip whenever `+Strip` is not `None`, then the
`+MinLength` check as written in the source — `if len(vo) > MinLength: raise
ValueError("Input too short")` — then `+MaxLength`, then `+Regex` (modelled
by the matcher parameter `rm`).  The checks do not modify `vo`, so the first
raised error is returned. -/
def Python_String (rm : String → String → Bool) (maxLength minLength : Option Int)
    (strip : Option Bool) (regex : Option String) (vi : PyVal) : PyVal × Option PyErr :=
  let v0 := pyStr vi
  let v := if strip.isSome then pyStrip v0 else v0
  let eMin : Option PyErr :=
    match minLength with
    | some n => if (v.length : Int) > n then some (.valueError "Input too short") else none
    | none => none
  let eMax : Option PyErr :=
    match maxLength with
    | some n => if (v.length : Int) > n then some (.valueError "Input too long") else none
    | none => none
  let eRegex : Option PyErr :=
    match regex with
    | some r => if rm r v then none else some (.valueError ("Does not match regex: " ++ r))
    | none => none
  (.vStr v, eMin <|> eMax <|> eRegex)

/-- The `+Length`/`+MaxLength`/`+MinLength` checks emitted by `Python_List`
(Granite.py lines 853-866), applied to `len(vo)` after the element loop; the
first failing check raises. -/
def listLenChecks (length maxLength minLength : Option Int) (n : Nat) : Option PyErr :=
  let eLen : Option PyErr :=
    match length with
    | some L => if (n : Int) ≠ L then
        some (.valueError ("List must contain exactly " ++ toString L ++ " items, but contains " ++ toString (n : Int) ++ " items."))
      else none
    | none => none
  let eMax : Option PyErr :=
    match maxLength with
    | some M => if (n : Int) > M then
        some (.valueError ("List must contain at most " ++ toString M ++ " items."))
      else none
    | none => none
  let eMin : Option PyErr :=
    match minLength with
    | some M => if (n : Int) < M then
        some (.valueError ("List must contain at least " ++ toString M ++ " items."))
      else none
    | none => none
  eLen <|> eMax <|> eMin

/-- The keys of the canonical `Struct` dict of an `Object` node, i.e.
`tuple(Struct)` as used by the extra-key copy loop emitted by
`Python_Object` (Granite.py line 763). -/
def objectStructKeys (fields : Fields) : List String :=
  ["+Source", "+Type", "+None", "+Label", "+Help", "+Extra"] ++ fields.names ++ ["+Default"]

/-- The extra-key copy loop emitted by `Python_Object` when `+Extra` is
truthy: every input entry whose key is `==` to none of the canonical struct
keys is copied verbatim into the output dict. -/
def addExtras (out : List (PyVal × PyVal)) (inp : List (PyVal × PyVal)) (keys : List String) : List (PyVal × PyVal) :=
  match inp with
  | [] => out
  | (k, v) :: rest =>
    if keys.any (fun s => pyEq k (.vStr s)) then addExtras out rest keys
    else addExtras (dictSet out k v) rest keys

/-- `vi.get(fieldname)` on a mapping value (only called under the
`isinstance(vi, Mapping)` guard). -/
def pyGet (m : PyVal) (name : String) : PyVal :=
  match m with
  | .vDict es => dictGet es (.vStr name)
  | _ => .vNone

/-- Truthiness of an `Option Bool` attribute (`BOOLN` result): `None` is
falsy, otherwise the stored bool. -/
def optTruthy : Option Bool → Bool
  | none => false
  | some b => b

/-- Entries of a mapping value (callers guard with `isMapping`). -/
def dictEntriesOf : PyVal → List (PyVal × PyVal)
  | .vDict es => es
  | _ => []

/-- The `except (ValueError, TypeError)` clause of the wrapper emitted by
`AS3.Python_` (Granite.py lines 668-669): a raised fault becomes a
`(Path, Message, Key, Value)` record appended to the error list, with the
`KeyVar`/`ValueVar` slots resolved against the child input variable's value
at raise time. -/
def catchExc (p : List String) (kv vv : RecArg) (vi : PyVal) :
    List ErrRec × PyVal × Option PyErr → List ErrRec × PyVal
  | (errs', vo', none) => (errs', vo')
  | (errs', vo', some e) => (errs' ++ [mkRec p e.msg kv vv vi], vo')

/-- Tail of the `Python_Object` mapping branch: attach the extra-key copy
loop's result (when `+Extra` is truthy) and wrap the output dict. -/
def objectFinish (extra : Option Bool) (fields : Fields) (inpEntries : List (PyVal × PyVal)) :
    List ErrRec × List (PyVal × PyVal) → List ErrRec × PyVal × Option PyErr
  | (errs', out) =>
    (errs', .vDict (if optTruthy extra then addExtras out inpEntries (objectStructKeys fields) else out), none)

/-- Tail of the `Python_Map` mapping branch: wrap the output dict, keeping a
fault raised inside the item loop. -/
def mapFinish : List ErrRec × List (PyVal × PyVal) × Option PyErr → List ErrRec × PyVal × Option PyErr
  | (errs', out, e) => (errs', .vDict out, e)

/-- Tail of the `Python_Set` iterable branch: wrap the output set, keeping a
fault raised inside the element loop. -/
def setFinish : List ErrRec × List PyVal × Option PyErr → List ErrRec × PyVal × Option PyErr
  | (errs', out, e) => (errs', .vSet out, e)

/-- Tail of the `Python_List` iterable branch: wrap the output list and run
the `+Length`/`+MaxLength`/`+MinLength` checks on `len(vo)`. -/
def listFinish (length maxLength minLength : Option Int) :
    List ErrRec × List PyVal → List ErrRec × PyVal × Option PyErr
  | (errs', out) => (errs', .vList out, listLenChecks length maxLength minLength out.length)

mutual
/-- Denotation of the wrapper emitted by `AS3.Python_` (Granite.py lines
647-672) for one node: a `try:` block that, when `+Default` is not `None`,
replaces a `None` input by the default and always runs the type handler, and
otherwise maps a `None` input to `None` output (nullable) or a local
`ValueError` (non-nullable), running the type handler on non-`None` input;
the `except (ValueError, TypeError)` clause converts a raised fault into a
`(Path, Message, Key, Value)` record appended to the error list.  `vo` is the
current value of the node's output variable (initialized to `Undefined` by
the parent); on a caught fault it keeps whatever the handler assigned before
raising. -/
def Python_ (rm : String → String → Bool) (s : Struct) (p : List String)
    (vi vo : PyVal) (errs : List ErrRec) (kv vv : RecArg) : List ErrRec × PyVal :=
  match s.dflt with
  | some d =>
    catchExc p kv vv (if vi.isNone then d else vi)
      (PythonHandler rm s p (if vi.isNone then d else vi) vo errs)
  | none =>
    if vi.isNone then
      if s.nullable then (errs, .vNone)
      else (errs ++ [mkRec p "Value must not be None" kv vv vi], vo)
    else catchExc p kv vv vi (PythonHandler rm s p vi vo errs)
termination_by (sizeOf s, 1, 0)

/-- Denotation of the per-type code the wrapper runs, i.e. the dispatch
`getattr(self, f"Python_<Type>")` over the embedded tags.  Returns the
updated error list (composites recurse through `Python_` for their
children), the updated output-variable value, and the fault raised by this
node's own code, if any. -/
def PythonHandler (rm : String → String → Bool) (s : Struct) (p : List String)
    (vi vo : PyVal) (errs : List ErrRec) : List ErrRec × PyVal × Option PyErr :=
  match s with
  | .sType _ _ => (errs, Python_Type vi)
  | .sBoolean _ _ => (errs, Python_Boolean vi)
  | .sInteger _ _ _ _ => (errs, Python_Integer vi vo)
  | .sEnum _ _ values => (errs, Python_Enum values vi)
  | .sString _ _ mx mn st rg => (errs, Python_String rm mx mn st rg vi)
  | .sEmail _ _ mx mn st rg => (errs, Python_String rm mx mn st rg vi)
  | .sObject _ _ extra fields =>
    if isMapping vi then
      objectFinish extra fields (dictEntriesOf vi) (Python_Object_fields rm fields p vi [] errs)
    else (errs, vo, some (.valueError ("Invalid type: " ++ pyStr vi)))
  | .sMap _ _ kt vt =>
    if isMapping vi then
      mapFinish (Python_Map_items rm kt vt p (dictEntriesOf vi) [] errs)
    else (errs, vo, some (.valueError ("Must be Mapping: " ++ pyStr vi)))
  | .sSet _ _ vt =>
    match pyIter vi with
    | some xs => setFinish (Python_Set_elems rm vt p xs [] errs)
    | none => (errs, vo, some (.valueError ("Must be Iterable: " ++ pyStr vi)))
  | .sList _ _ len mx mn vt =>
    match vi with
    | .vStr _ => (errs, vo, some (.typeError ("Must be Iterable but not a string: " ++ pyStr vi)))
    | _ =>
      match pyIter vi with
      | some xs => listFinish len mx mn (Python_List_elems rm vt p xs [] errs)
      | none => (errs, vo, some (.typeError ("Must be Iterable: " ++ pyStr vi)))
termination_by (sizeOf s, 0, 0)

/-- The declared-field loop emitted by `Python_Object` (Granite.py lines
751-759): each field's value is fetched with `.get` (absent keys become
`None`), run through its own wrapped node with `KeyVar` the child input
variable, and assigned into the output dict unconditionally. -/
def Python_Object_fields (rm : String → String → Bool) (fs : Fields) (p : List String)
    (viMap : PyVal) (out : List (PyVal × PyVal)) (errs : List ErrRec) : List ErrRec × List (PyVal × PyVal) :=
  match fs with
  | .fnil => (errs, out)
  | .fcons name fieldS rest =>
    match Python_ rm fieldS (p ++ [name]) (pyGet viMap name) .undefined errs .selfVi .noneLit with
    | (errs', voC) => Python_Object_fields rm rest p viMap (dictSet out (.vStr name) voC) errs'
termination_by (sizeOf fs, 0, 0)

/-- The element loop emitted by `Python_List` (Granite.py lines 846-851):
each element runs through the wrapped `+ValueType` node (with `ValueVar` the
child input variable) and the resulting output variable is appended
unconditionally. -/
def Python_List_elems (rm : String → String → Bool) (vt : Struct) (p : List String)
    (xs acc : List PyVal) (errs : List ErrRec) : List ErrRec × List PyVal :=
  match xs with
  | [] => (errs, acc)
  | x :: rest =>
    let (errs', voC) := Python_ rm vt (p ++ ["+ValueType"]) x .undefined errs .noneLit .selfVi
    Python_List_elems rm vt p rest (acc ++ [voC]) errs'
termination_by (sizeOf vt, 2, xs.length)

/-- The element loop emitted by `Python_Set` (Granite.py lines 820-824):
each element runs through the wrapped `+ValueType` node and is added to the
set; an unhashable element value raises `TypeError` in the set node's own
scope, aborting the loop. -/
def Python_Set_elems (rm : String → String → Bool) (vt : Struct) (p : List String)
    (xs acc : List PyVal) (errs : List ErrRec) : List ErrRec × List PyVal × Option PyErr :=
  match xs with
  | [] => (errs, acc, none)
  | x :: rest =>
    let (errs', voC) := Python_ rm vt (p ++ ["+ValueType"]) x .undefined errs .noneLit .selfVi
    match setAdd acc voC with
    | .ok acc' => Python_Set_elems rm vt p rest acc' errs'
    | .error e => (errs', acc, some e)
termination_by (sizeOf vt, 2, xs.length)

/-- The item loop emitted by `Python_Map` (Granite.py lines 785-803): each
key runs through the wrapped `+KeyType` node (`KeyVar` the raw key), each
value through the wrapped `+ValueType` node (`KeyVar` the raw key,
`ValueVar` the raw value), then `vo[key] = value`; an unhashable coerced key
raises `TypeError` in the map node's own scope, aborting the loop. -/
def Python_Map_items (rm : String → String → Bool) (kt vt : Struct) (p : List String)
    (items : List (PyVal × PyVal)) (acc : List (PyVal × PyVal)) (errs : List ErrRec) :
    List ErrRec × List (PyVal × PyVal) × Option PyErr :=
  match items with
  | [] => (errs, acc, none)
  | (k, v) :: rest =>
    let (errs1, kOut) := Python_ rm kt (p ++ ["+KeyType"]) k .undefined errs (.val k) .noneLit
    let (errs2, vOut) := Python_ rm vt (p ++ ["+ValueType"]) v .undefined errs1 (.val k) (.val v)
    match dictSetChecked acc kOut vOut with
    | .ok acc' => Python_Map_items rm kt vt p rest acc' errs2
    | .error e => (errs2, acc, some e)
termination_by (sizeOf kt + sizeOf vt, 2, items.length)
decreasing_by
  all_goals simp_wf
  · refine Prod.Lex.left _ _ ?_
    have hvt : 0 < sizeOf vt := by cases vt <;> simp_arith
    omega
  · refine Prod.Lex.left _ _ ?_
    have hkt : 0 < sizeOf kt := by cases kt <;> simp_arith
    omega
  · exact Prod.Lex.right _ (Prod.Lex.right _ (by omega))
end

/-- `str(errs)`: the Python repr of the error-record list of 4-tuples, the
payload of the single `Exception` raised by the generated function. -/
def errsToStr (errs : List ErrRec) : String :=
  let tup := fun (r : ErrRec) =>
    "(" ++ pyRepr (.vStr r.path) ++ ", " ++ pyRepr (.vStr r.msg) ++ ", " ++ pyRepr r.key ++ ", " ++ pyRepr r.value ++ ")"
  "[" ++ joinWith ", " (errs.map tup) ++ "]"

/-- Run the compiled plan body emitted by `AS3.Python` (Granite.py lines
591-599): `errs = []`, `vi0 = data`, `vo0 = Undefined`, the root node's
wrapped steps with `StructPath = ("<Data>",)` and no `KeyVar`/`ValueVar`,
returning the final error list and root output variable. -/
def runPlan (rm : String → String → Bool) (s : Struct) (data : PyVal) : List ErrRec × PyVal :=
  Python_ rm s ["<Data>"] data .undefined [] .noneLit .noneLit

/-- The compiled function produced by `AS3.Compile`: after the walk it raises
`Exception(str(errs))` when the error list is nonempty, else returns the root
output (Granite.py lines 596-599). -/
def CompiledFunction (rm : String → String → Bool) (s : Struct) (data : PyVal) : Except String PyVal :=
  let (errs, vo) := runPlan rm s data
  if errs.isEmpty then .ok vo else .error (errsToStr errs)

/-- The failure surfaced by `AS3.__call__`: its `except Exception` clause
re-raises every exception escaping the compiled function as
`AS3.CompiledCodeError`, whose message embeds the generated code listing, the
input data and the traceback (Granite.py lines 548-557).  The model keeps the
input value and the inner exception's text. -/
inductive CallErr where
  | compiledCodeError (data : PyVal) (inner : String)

/-- Denotation of `AS3.__call__` (Granite.py lines 545-557). -/
def AS3call (rm : String → String → Bool) (s : Struct) (data : PyVal) : Except CallErr PyVal :=
  match CompiledFunction rm s data with
  | .ok v => .ok v
  | .error inner => .error (.compiledCodeError data inner)

mutual
/-- A raw schema fragment as fed to `AS3.Struct_`: either a bare string
shorthand or a mapping from attribute/field names to raw values. -/
inductive RawSchema where
  | rstr (s : String)
  | rmap (es : RawEntries)

/-- Ordered entries of a raw schema mapping (Python dicts have unique keys;
the embedding assumes the same). -/
inductive RawEntries where
  | rnil
  | rcons (k : String) (v : RawAttr) (rest : RawEntries)

/-- A raw attribute value: either a plain Python value or a nested raw
schema (the dict/string form a type slot or field holds). -/
inductive RawAttr where
  | pv (v : PyVal)
  | sub (r : RawSchema)
end

/-- Keys of the raw entries, in order. -/
def RawEntries.keys : RawEntries → List String
  | .rnil => []
  | .rcons k _ rest => k :: rest.keys

/-- `k in StructIn`. -/
def RawEntries.hasKey : RawEntries → String → Bool
  | .rnil, _ => false
  | .rcons k0 _ rest, k => k0 == k || rest.hasKey k

/-- `StructIn.pop(k, <default absent>)`: the first entry with the key, and
the entries without it. -/
def popAttr : RawEntries → String → Option RawAttr × RawEntries
  | .rnil, _ => (none, .rnil)
  | .rcons k0 v rest, k =>
    if k0 == k then (some v, rest)
    else
      let (r, rest') := popAttr rest k
      (r, .rcons k0 v rest')

/-- Truthiness of a raw attribute value (`bool(x)`); a nested schema is a
dict or string, truthy when nonempty. -/
def attrTruthy : RawAttr → Bool
  | .pv v => pyBool v
  | .sub (.rstr s) => s != ""
  | .sub (.rmap es) => match es with | .rnil => false | _ => true

/-- `INTN` (Granite.py lines 107-111): `None` and the empty string map to
`None`, anything else goes through `int()`, whose faults abort
normalization. -/
def INTN (v : PyVal) : Except String (Option Int) :=
  match v with
  | .vNone => .ok none
  | .vStr s =>
    if s = "" then .ok none
    else match pyInt (.vStr s) with
      | .ok n => .ok (some n)
      | .error e => .error e.msg
  | _ =>
    match pyInt v with
    | .ok n => .ok (some n)
    | .error e => .error e.msg

/-- `INTN` applied to a popped raw attribute (absent keys use the `None` pop
default); a nested-schema value would be `int(dict)`, a `TypeError`. -/
def INTNa : Option RawAttr → Except String (Option Int)
  | none => .ok none
  | some (.pv v) => INTN v
  | some (.sub _) => .error "int() argument must be a string, a bytes-like object or a real number, not \x27dict\x27"

/-- `BOOLN` (Granite.py lines 101-105) applied to a popped raw attribute
with a pop default: `None` and the empty string map to `None`, anything
else to its truthiness. -/
def BOOLNa (a : Option RawAttr) (dfltV : PyVal) : Option Bool :=
  match a with
  | none =>
    match dfltV with
    | .vNone => none
    | .vStr "" => none
    | v => some (pyBool v)
  | some (.pv .vNone) => none
  | some (.pv (.vStr "")) => none
  | some (.pv v) => some (pyBool v)
  | some (.sub r) => some (attrTruthy (.sub r))

/-- `STRN` (Granite.py lines 95-99) applied to a popped raw attribute:
`None` and the empty string map to `None`, other values through `str()`.  A
nested-schema value is outside the embedding (only `+Regex` reaches `STRN`,
with string values in practice). -/
def STRNa : Option RawAttr → Except String (Option String)
  | none => .ok none
  | some (.pv .vNone) => .ok none
  | some (.pv (.vStr "")) => .ok none
  | some (.pv v) => .ok (some (pyStr v))
  | some (.sub _) => .error "+Regex with a schema-valued attribute is outside the embedded universe"

/-- The `+Default` value stored by `Struct_` (Granite.py line 640):
`deepcopy` of the popped value, with Python `None` meaning no default.  The
deep copy has no observable counterpart on pure values; a schema-valued
default is outside the embedding. -/
def attrDefault : Option RawAttr → Except String (Option PyVal)
  | none => .ok none
  | some (.pv .vNone) => .ok none
  | some (.pv v) => .ok (some v)
  | some (.sub _) => .error "+Default with a schema-valued attribute is outside the embedded universe"

/-- Desugaring of the bare-string shorthand (Granite.py lines 610-614):
`"T?"` becomes `{+Type: T, +None: True}`, `"T"` becomes `{+Type: T}`. -/
def strToEntries (s : String) : RawEntries :=
  if endsWithQmark s then
    .rcons "+Type" (.pv (.vStr (dropLastChar s))) (.rcons "+None" (.pv (.vBool true)) .rnil)
  else .rcons "+Type" (.pv (.vStr s)) .rnil

/-- A raw attribute as a nested schema fragment, as `Struct_` would consume
it when recursing: nested schemas and string shorthands pass, any other
value fails `dict()` conversion with `TypeError` (Granite.py line 616). -/
def toRawSchema : RawAttr → Except String RawSchema
  | .sub r => .ok r
  | .pv (.vStr s) => .ok (.rstr s)
  | .pv v => .error ("TypeError: cannot convert \x27" ++ pyTypeName v ++ "\x27 object to a schema dict")

/-- `Struct_Integer` (Granite.py lines 686-688), exactly as written: both
bounds are populated by popping the `+MaxValue` key — the second pop finds
the key already consumed and falls back to the `None` default, so
`+MinValue` is always `None`, and a declared `+MinValue` attribute is never
popped. -/
def Struct_Integer (es : RawEntries) : Except String ((Option Int × Option Int) × RawEntries) := do
  let (mxA, es) := popAttr es "+MaxValue"
  let mx ← INTNa mxA
  let (mnA, es) := popAttr es "+MaxValue"
  let mn ← INTNa mnA
  .ok ((mx, mn), es)

/-- `Struct_String` (Granite.py lines 715-719): `+MaxLength`, `+MinLength`,
`+Strip` (pop default `True`), `+Regex`. -/
def Struct_String (es : RawEntries) :
    Except String ((Option Int × Option Int × Option Bool × Option String) × RawEntries) := do
  let (mxA, es) := popAttr es "+MaxLength"
  let mx ← INTNa mxA
  let (mnA, es) := popAttr es "+MinLength"
  let mn ← INTNa mnA
  let (stA, es) := popAttr es "+Strip"
  let st := BOOLNa stA (.vBool true)
  let (rgA, es) := popAttr es "+Regex"
  let rg ← STRNa rgA
  .ok ((mx, mn, st, rg), es)

/-- `Struct_Enum` (Granite.py lines 707-708): `+Values` is popped without a
default, so a missing key raises `KeyError` — outside the `try` block, hence
uncaught, but still a synchronous normalization failure. -/
def Struct_Enum (es : RawEntries) : Except String (PyVal × RawEntries) :=
  match popAttr es "+Values" with
  | (none, _) => .error "KeyError: \x27+Values\x27"
  | (some (.pv v), es) => .ok (v, es)
  | (some (.sub _), _) => .error "+Values with a schema-valued attribute is outside the embedded universe"

/-- `Struct_List` bound attributes (Granite.py lines 832-834): `+Length`,
`+MaxLength`, `+MinLength`, each through `INTN` — here each bound pops its
own key. -/
def Struct_List_bounds (es : RawEntries) :
    Except String ((Option Int × Option Int × Option Int) × RawEntries) := do
  let (lA, es) := popAttr es "+Length"
  let len ← INTNa lA
  let (mxA, es) := popAttr es "+MaxLength"
  let mx ← INTNa mxA
  let (mnA, es) := popAttr es "+MinLength"
  let mn ← INTNa mnA
  .ok ((len, mx, mn), es)

mutual
/-- `AS3.Struct_` (Granite.py lines 609-645) over the embedded type tags:
desugar the string shorthand, pop `+Source`/`+Type`, resolve nullability
(rejecting a `?` suffix combined with an explicit `+None`), pop
`+Label`/`+Help`, dispatch to the type handler, pop `+Default`, and fail if
any leftover key is not among the canonical struct keys.  The `fuel`
argument is a recursion budget (an embedding artifact; the source recurses
on the finite schema tree). -/
def Struct_ (fuel : Nat) (p : List String) (raw : RawSchema) : Except String Struct :=
  match fuel with
  | 0 => .error "recursion budget exhausted (embedding artifact)"
  | f + 1 =>
    let es := match raw with
      | .rstr s => strToEntries s
      | .rmap es => es
    let (_, es) := popAttr es "+Source"
    match popAttr es "+Type" with
    | (none, _) => .error ("KeyError at `" ++ joinPath p ++ "`: \x27+Type\x27")
    | (some (.sub _), _) =>
      .error ("AttributeError: the `+Type` value has no attribute \x27endswith\x27 at `" ++ joinPath p ++ "`")
    | (some (.pv tv), es) =>
      match tv with
      | .vStr t0 =>
        let nres : Except String (String × Bool × RawEntries) :=
          if endsWithQmark t0 then
            if es.hasKey "+None" then
              .error ("`+Type` ended with `?` yet `+None` was specified anyway at `" ++ joinPath p ++ "`")
            else .ok (dropLastChar t0, true, es)
          else
            let (nA, es) := popAttr es "+None"
            .ok (t0, (match nA with | none => false | some a => attrTruthy a), es)
        match nres with
        | .error m => .error m
        | .ok (t, nullable, es) =>
          let (_, es) := popAttr es "+Label"
          let (_, es) := popAttr es "+Help"
          let hres : Except String ((Option PyVal → Struct) × List String × RawEntries) :=
            match t with
            | "Type" => .ok ((fun d => .sType nullable d), [], es)
            | "Boolean" => .ok ((fun d => .sBoolean nullable d), [], es)
            | "Integer" =>
              match Struct_Integer es with
              | .error m => .error m
              | .ok ((mx, mn), es) =>
                .ok ((fun d => .sInteger nullable d mx mn), ["+MaxValue", "+MinValue"], es)
            | "Enum" =>
              match Struct_Enum es with
              | .error m => .error m
              | .ok (vs, es) => .ok ((fun d => .sEnum nullable d vs), ["+Values"], es)
            | "String" =>
              match Struct_String es with
              | .error m => .error m
              | .ok ((mx, mn, st, rg), es) =>
                .ok ((fun d => .sString nullable d mx mn st rg), ["+MaxLength", "+MinLength", "+Strip", "+Regex"], es)
            | "Email" =>
              match Struct_String es with
              | .error m => .error m
              | .ok ((mx, mn, st, rg), es) =>
                .ok ((fun d => .sEmail nullable d mx mn st rg), ["+MaxLength", "+MinLength", "+Strip", "+Regex"], es)
            | "Object" =>
              let (exA, es) := popAttr es "+Extra"
              let ex := BOOLNa exA (.vBool false)
              match Struct_Object_fields f p es with
              | .error m => .error m
              | .ok (fields, es) =>
                .ok ((fun d => .sObject nullable d ex fields), "+Extra" :: fields.names, es)
            | "Map" =>
              match popAttr es "+KeyType" with
              | (none, _) => .error ("Missing `+KeyType` for type `Map` at `" ++ joinPath p ++ "`")
              | (some kA, es) =>
                match toRawSchema kA with
                | .error m => .error m
                | .ok kRaw =>
                  match Struct_ f (p ++ ["+KeyType"]) kRaw with
                  | .error m => .error m
                  | .ok kt =>
                    match popAttr es "+ValueType" with
                    | (none, _) => .error ("Missing `+ValueType` for type `Map` at `" ++ joinPath p ++ "`")
                    | (some vA, es) =>
                      match toRawSchema vA with
                      | .error m => .error m
                      | .ok vRaw =>
                        match Struct_ f (p ++ ["+ValueType"]) vRaw with
                        | .error m => .error m
                        | .ok vt => .ok ((fun d => .sMap nullable d kt vt), ["+KeyType", "+ValueType"], es)
            | "Set" =>
              match popAttr es "+ValueType" with
              | (none, _) => .error ("Missing `+ValueType` for type `Set` at `" ++ joinPath p ++ "`")
              | (some vA, es) =>
                match toRawSchema vA with
                | .error m => .error m
                | .ok vRaw =>
                  match Struct_ f (p ++ ["+ValueType"]) vRaw with
                  | .error m => .error m
                  | .ok vt => .ok ((fun d => .sSet nullable d vt), ["+ValueType"], es)
            | "List" =>
              match Struct_List_bounds es with
              | .error m => .error m
              | .ok ((len, mx, mn), es) =>
                match popAttr es "+ValueType" with
                | (none, _) => .error ("Missing `+ValueType` for type `List` at `" ++ joinPath p ++ "`")
                | (some vA, es) =>
                  match toRawSchema vA with
                  | .error m => .error m
                  | .ok vRaw =>
                    match Struct_ f (p ++ ["+ValueType"]) vRaw with
                    | .error m => .error m
                    | .ok vt =>
                      .ok ((fun d => .sList nullable d len mx mn vt), ["+Length", "+MaxLength", "+MinLength", "+ValueType"], es)
            | _ => .error ("Unrecognized type `" ++ t ++ "` at `" ++ joinPath p ++ "`")
          match hres with
          | .error m => .error m
          | .ok (mk, tkeys, es) =>
            let (dA, es) := popAttr es "+Default"
            match attrDefault dA with
            | .error m => .error m
            | .ok dflt =>
              let canon := ["+Source", "+Type", "+None", "+Label", "+Help"] ++ tkeys ++ ["+Default"]
              let bad := es.keys.filter (fun k => !canon.contains k)
              if bad.isEmpty then .ok (mk dflt)
              else .error ("Unrecognized attributes for type `" ++ t ++ "` at `" ++ joinPath p ++ "`: " ++ joinWith ", " bad)
      | _ => .error ("AttributeError: the `+Type` value has no attribute \x27endswith\x27 at `" ++ joinPath p ++ "`")
termination_by (fuel, 0)

/-- The field loop of `Struct_Object` (Granite.py lines 742-745): every
remaining key not starting with `+` is popped and normalized as a child node
under an extended path, in declaration order; `+`-prefixed keys are left in
place for the later unconsumed-attribute check. -/
def Struct_Object_fields (fuel : Nat) (p : List String) (es : RawEntries) :
    Except String (Fields × RawEntries) :=
  match es with
  | .rnil => .ok (.fnil, .rnil)
  | .rcons k v rest =>
    if startsWithPlus k then
      match Struct_Object_fields fuel p rest with
      | .error m => .error m
      | .ok (fields, left) => .ok (fields, .rcons k v left)
    else
      match toRawSchema v with
      | .error m => .error m
      | .ok r =>
        match Struct_ fuel (p ++ [k]) r with
        | .error m => .error m
        | .ok s =>
          match Struct_Object_fields fuel p rest with
          | .error m => .error m
          | .ok (fields, left) => .ok (.fcons k s fields, left)
termination_by (fuel, 1 + sizeOf es)
end

/-- `AS3.__init__` (Granite.py lines 529-542): normalize the raw schema with
the default root path `("<Data>",)`; a normalization fault aborts before any
plan exists. -/
def AS3init (fuel : Nat) (raw : RawSchema) : Except String Struct :=
  Struct_ fuel ["<Data>"] raw

/-- A concrete regular-expression matcher instance, used to instantiate the
matcher parameter in closed evaluations (no schema below carries `+Regex`,
so its value is never consulted). -/
def rmAny : String → String → Bool := fun _ _ => true

/-- Whether an `Except` result is a success (used to state that
normalization fails without fixing the message text). -/
def exceptIsOk : Except String Struct → Bool
  | .ok _ => true
  | .error _ => false

/-- Raw declaration `{+Type: Integer, +MaxValue: 5}`. -/
def rawIntegerMax5 : RawSchema :=
  .rmap (.rcons "+Type" (.pv (.vStr "Integer")) (.rcons "+MaxValue" (.pv (.vInt 5)) .rnil))

/-- Raw declaration `{+Type: Integer, +MinValue: 0, +MaxValue: 10}`. -/
def rawIntegerMinMax : RawSchema :=
  .rmap (.rcons "+Type" (.pv (.vStr "Integer"))
    (.rcons "+MinValue" (.pv (.vInt 0)) (.rcons "+MaxValue" (.pv (.vInt 10)) .rnil)))

/-- Raw declaration `{+Type: Integer, +MinValue: 0}`. -/
def rawIntegerMin0 : RawSchema :=
  .rmap (.rcons "+Type" (.pv (.vStr "Integer")) (.rcons "+MinValue" (.pv (.vInt 0)) .rnil))

/-- Raw declaration `{+Type: String, +MinLength: 2}`. -/
def rawStringMin2 : RawSchema :=
  .rmap (.rcons "+Type" (.pv (.vStr "String")) (.rcons "+MinLength" (.pv (.vInt 2)) .rnil))

/-- Raw declaration `{+Type: Map, +ValueType: "Type"}` (no `+KeyType`). -/
def rawMapNoKeyType : RawSchema :=
  .rmap (.rcons "+Type" (.pv (.vStr "Map")) (.rcons "+ValueType" (.pv (.vStr "Type")) .rnil))

/-- Raw declaration `{+Type: Map, +KeyType: "Type"}` (no `+ValueType`). -/
def rawMapNoValueType : RawSchema :=
  .rmap (.rcons "+Type" (.pv (.vStr "Map")) (.rcons "+KeyType" (.pv (.vStr "Type")) .rnil))

/-- Raw declaration `{+Type: "Integer?", +None: True}` (conflicting nullable
syntax). -/
def rawConflictNullable : RawSchema :=
  .rmap (.rcons "+Type" (.pv (.vStr "Integer?")) (.rcons "+None" (.pv (.vBool true)) .rnil))

/-- Raw declaration `{+Type: Integer, +Bogus: 1}`. -/
def rawBogusAttr : RawSchema :=
  .rmap (.rcons "+Type" (.pv (.vStr "Integer")) (.rcons "+Bogus" (.pv (.vInt 1)) .rnil))

/-- Canonical non-nullable `Integer` node without bounds or default. -/
def structIntegerPlain : Struct := .sInteger false none none none

/-- Canonical `Integer` node with `+MaxValue` 5 — what `rawIntegerMax5`
normalizes to. -/
def structIntegerMax5 : Struct := .sInteger false none (some 5) none

/-- Canonical `String` node with `+MinLength` 2 (default `+Strip`) — what
`rawStringMin2` normalizes to. -/
def structStringMin2 : Struct := .sString false none none (some 2) (some true) none

/-- Canonical `List` node with `+Length` 3 over nullable `Type` elements. -/
def structListLen3 : Struct := .sList false none (some 3) none none (.sType true none)

/-- Canonical `List` node over non-nullable `Integer` elements. -/
def structListInteger : Struct := .sList false none none none none structIntegerPlain

/-- Canonical `List` node over `String` elements with `+MaxLength` 1. -/
def structListString1 : Struct :=
  .sList false none none none none (.sString false none (some 1) none (some true) none)

/-- Canonical `Set` node over non-nullable `Integer` elements. -/
def structSetInteger : Struct := .sSet false none structIntegerPlain

/-- Canonical `Object` node with two non-nullable `Integer` fields `A`,
`B`. -/
def structObjectAB : Struct :=
  .sObject false none (some false) (.fcons "A" structIntegerPlain (.fcons "B" structIntegerPlain .fnil))

/-- Canonical nullable `Integer` node with `+Default` 5. -/
def structIntegerNullableDefault5 : Struct := .sInteger true (some (.vInt 5)) none none

/-- Canonical `String` node with `+Default` `" a "` (default `+Strip`). -/
def structStringDefaultPad : Struct :=
  .sString false (some (.vStr " a ")) none none (some true) none

/-- `catchExc` only ever appends the caught record to the handler's error
list. -/
theorem catchExc_fst_extends (p : List String) (kv vv : RecArg) (vi : PyVal)
    (t : List ErrRec × PyVal × Option PyErr) : t.1 <+: (catchExc p kv vv vi t).1 := by
  rcases t with ⟨errs', vo', exc⟩
  cases exc
  · exact List.prefix_refl _
  · exact List.prefix_append _ _

/-- `objectFinish` keeps the error list of the field loop. -/
theorem objectFinish_fst (extra : Option Bool) (fields : Fields) (ie : List (PyVal × PyVal))
    (t : List ErrRec × List (PyVal × PyVal)) : (objectFinish extra fields ie t).1 = t.1 := by
  rcases t with ⟨errs', out⟩; rfl

/-- `mapFinish` keeps the error list of the item loop. -/
theorem mapFinish_fst (t : List ErrRec × List (PyVal × PyVal) × Option PyErr) :
    (mapFinish t).1 = t.1 := by
  rcases t with ⟨errs', out, e⟩; rfl

/-- `setFinish` keeps the error list of the element loop. -/
theorem setFinish_fst (t : List ErrRec × List PyVal × Option PyErr) :
    (setFinish t).1 = t.1 := by
  rcases t with ⟨errs', out, e⟩; rfl

/-- `listFinish` keeps the error list of the element loop. -/
theorem listFinish_fst (len mx mn : Option Int) (t : List ErrRec × List PyVal) :
    (listFinish len mx mn t).1 = t.1 := by
  rcases t with ⟨errs', out⟩; rfl

mutual
/-- A wrapped node step only ever appends to the shared error list: the
incoming list is a prefix of the outgoing one. -/
theorem Python__mono (rm : String → String → Bool) (s : Struct) (p : List String)
    (vi vo : PyVal) (errs : List ErrRec) (kv vv : RecArg) :
    errs <+: (Python_ rm s p vi vo errs kv vv).1 := by
  rw [Python_]
  split
  · next d _ =>
    exact (PythonHandler_mono rm s p (if vi.isNone then d else vi) vo errs).trans
      (catchExc_fst_extends _ _ _ _ _)
  · split
    · split
      · exact List.prefix_refl _
      · exact List.prefix_append _ _
    · exact (PythonHandler_mono rm s p vi vo errs).trans (catchExc_fst_extends _ _ _ _ _)
termination_by (sizeOf s, 1, 0)

/-- A type handler only ever appends to the shared error list. -/
theorem PythonHandler_mono (rm : String → String → Bool) (s : Struct) (p : List String)
    (vi vo : PyVal) (errs : List ErrRec) :
    errs <+: (PythonHandler rm s p vi vo errs).1 := by
  rw [PythonHandler.eq_def]
  split
  · exact List.prefix_refl _
  · exact List.prefix_refl _
  · exact List.prefix_refl _
  · exact List.prefix_refl _
  · exact List.prefix_refl _
  · exact List.prefix_refl _
  · next extra fields =>
    split
    · rw [objectFinish_fst]
      exact Python_Object_fields_mono rm fields p vi [] errs
    · exact List.prefix_refl _
  · next kt vt =>
    split
    · rw [mapFinish_fst]
      exact Python_Map_items_mono rm kt vt p (dictEntriesOf vi) [] errs
    · exact List.prefix_refl _
  · next vt =>
    split
    · next xs _ =>
      rw [setFinish_fst]
      exact Python_Set_elems_mono rm vt p xs [] errs
    · exact List.prefix_refl _
  · split
    · exact List.prefix_refl _
    · split
      · next xs _ =>
        rw [listFinish_fst]
        exact Python_List_elems_mono rm _ p xs [] errs
      · exact List.prefix_refl _
termination_by (sizeOf s, 0, 0)

/-- The object field loop only ever appends to the shared error list. -/
theorem Python_Object_fields_mono (rm : String → String → Bool) (fs : Fields) (p : List String)
    (viMap : PyVal) (out : List (PyVal × PyVal)) (errs : List ErrRec) :
    errs <+: (Python_Object_fields rm fs p viMap out errs).1 := by
  rw [Python_Object_fields.eq_def]
  split
  · exact List.prefix_refl _
  · next name fieldS rest =>
    have h1 := Python__mono rm fieldS (p ++ [name]) (pyGet viMap name) .undefined errs .selfVi .noneLit
    rcases heq : Python_ rm fieldS (p ++ [name]) (pyGet viMap name) .undefined errs .selfVi .noneLit with ⟨errs', voC⟩
    rw [heq] at h1
    exact h1.trans (Python_Object_fields_mono rm rest p viMap (dictSet out (.vStr name) voC) errs')
termination_by (sizeOf fs, 0, 0)

/-- The list element loop only ever appends to the shared error list. -/
theorem Python_List_elems_mono (rm : String → String → Bool) (vt : Struct) (p : List String)
    (xs acc : List PyVal) (errs : List ErrRec) :
    errs <+: (Python_List_elems rm vt p xs acc errs).1 := by
  rw [Python_List_elems.eq_def]
  split
  · exact List.prefix_refl _
  · next x rest =>
    have h1 := Python__mono rm vt (p ++ ["+ValueType"]) x .undefined errs .noneLit .selfVi
    rcases heq : Python_ rm vt (p ++ ["+ValueType"]) x .undefined errs .noneLit .selfVi with ⟨errs', voC⟩
    rw [heq] at h1
    exact h1.trans (Python_List_elems_mono rm vt p rest (acc ++ [voC]) errs')
termination_by (sizeOf vt, 2, xs.length)

/-- The set element loop only ever appends to the shared error list. -/
theorem Python_Set_elems_mono (rm : String → String → Bool) (vt : Struct) (p : List String)
    (xs acc : List PyVal) (errs : List ErrRec) :
    errs <+: (Python_Set_elems rm vt p xs acc errs).1 := by
  rw [Python_Set_elems.eq_def]
  split
  · exact List.prefix_refl _
  · next x rest =>
    have h1 := Python__mono rm vt (p ++ ["+ValueType"]) x .undefined errs .noneLit .selfVi
    split
    next errs' voC heqP =>
    rw [heqP] at h1
    split
    · exact h1.trans (Python_Set_elems_mono rm vt p rest _ errs')
    · exact h1
termination_by (sizeOf vt, 2, xs.length)

/-- The map item loop only ever appends to the shared error list. -/
theorem Python_Map_items_mono (rm : String → String → Bool) (kt vt : Struct) (p : List String)
    (items : List (PyVal × PyVal)) (acc : List (PyVal × PyVal)) (errs : List ErrRec) :
    errs <+: (Python_Map_items rm kt vt p items acc errs).1 := by
  induction items generalizing acc errs with
  | nil =>
    rw [Python_Map_items]
  | cons kv rest ih =>
    rcases kv with ⟨k, v⟩
    rw [Python_Map_items]
    have h1 := Python__mono rm kt (p ++ ["+KeyType"]) k .undefined errs (.val k) .noneLit
    split
    next errs1 kOut heq1 =>
    rw [heq1] at h1
    have h2 := Python__mono rm vt (p ++ ["+ValueType"]) v .undefined errs1 (.val k) (.val v)
    split
    next errs2 vOut heq2 =>
    rw [heq2] at h2
    split
    · exact (h1.trans h2).trans (ih _ _)
    · exact h1.trans h2
termination_by (sizeOf kt + sizeOf vt, 2, items.length)
decreasing_by
  · refine Prod.Lex.left _ _ ?_
    have hvt : 0 < sizeOf vt := by cases vt <;> simp_arith
    omega
  · refine Prod.Lex.left _ _ ?_
    have hkt : 0 < sizeOf kt := by cases kt <;> simp_arith
    omega
end

/-- C2: the claim that Integer (and Decimal/Float) nodes with `+MinValue`/
`+MaxValue` are checked against both bounds fails on the code:
`rawIntegerMax5` compiles to a node that stores the bound, yet
`Python_Integer` emits no comparison, so the out-of-range input 10 validates
with no error and is returned unchanged; a declared `+MinValue` is never
even read into the node (`Struct_Integer` pops the `+MaxValue` key twice),
so `rawIntegerMinMax` normalizes with `minValue = none`.  `Struct_Decimal`
and `Struct_Float` repeat the same dead-bound pattern verbatim. -/
theorem C2_integer_bounds_unchecked :
    AS3init 9 rawIntegerMax5 = .ok structIntegerMax5
    ∧ AS3init 9 rawIntegerMinMax = .ok (.sInteger false none (some 10) none)
    ∧ runPlan rmAny structIntegerMax5 (.vInt 10) = ([], .vInt 10)
    ∧ AS3call rmAny structIntegerMax5 (.vInt 10) = .ok (.vInt 10) := by
  refine ⟨?_, ?_, ?_, ?_⟩
  · simp [AS3init, Struct_, rawIntegerMax5, popAttr, strToEntries, INTNa, INTN, BOOLNa, STRNa,
      attrDefault, attrTruthy, toRawSchema, Struct_Integer, RawEntries.keys, RawEntries.hasKey,
      pyInt, joinPath, structIntegerMax5]
    try rfl
  · simp [AS3init, Struct_, rawIntegerMinMax, popAttr, strToEntries, INTNa, INTN, BOOLNa, STRNa,
      attrDefault, attrTruthy, toRawSchema, Struct_Integer, RawEntries.keys, RawEntries.hasKey,
      pyInt, joinPath]
    try rfl
  · simp [runPlan, Python_, PythonHandler, Python_Integer, pyInt, catchExc, Struct.dflt,
      PyVal.isNone, structIntegerMax5]
    try rfl
  · simp [AS3call, CompiledFunction, runPlan, Python_, PythonHandler, Python_Integer, pyInt,
      catchExc, Struct.dflt, PyVal.isNone, structIntegerMax5]
    try rfl

/-- C3: the claim that a `+MinLength` of n flags post-strip strings shorter
than n and passes strings of length at least n fails on the code: the
emitted check is `if len(vo) > MinLength: raise ValueError("Input too
short")`, so `"abc"` (length 3 ≥ 2) is reported "Input too short" at the
node's path while `"a"` (length 1 < 2) validates without any error. -/
theorem C3_minlength_inverted :
    AS3init 9 rawStringMin2 = .ok structStringMin2
    ∧ runPlan rmAny structStringMin2 (.vStr "abc")
        = ([⟨"<Data>", "Input too short", .vNone, .vNone⟩], .vStr "abc")
    ∧ runPlan rmAny structStringMin2 (.vStr "a") = ([], .vStr "a") := by
  refine ⟨?_, ?_, ?_⟩
  · simp [AS3init, Struct_, rawStringMin2, popAttr, strToEntries, INTNa, INTN, BOOLNa, STRNa,
      attrDefault, attrTruthy, toRawSchema, Struct_String, RawEntries.keys, RawEntries.hasKey,
      pyInt, joinPath, structStringMin2, pyBool]
    try rfl
  · simp [runPlan, Python_, PythonHandler, Python_String, pyStr, catchExc, Struct.dflt,
      PyVal.isNone, structStringMin2, mkRec, joinPath, joinWith, resolveArg, PyErr.msg]
    try rfl
  · simp [runPlan, Python_, PythonHandler, Python_String, pyStr, catchExc, Struct.dflt,
      PyVal.isNone, structStringMin2]
    try rfl

/-- C5 counterexample: a nullable node that also carries a `+Default` maps a
null input to the (coerced) default, not to null — default substitution runs
first and the handler always runs in that branch, so the claim's first part
is false as stated for nodes with a default. -/
theorem C5_counterexample :
    Struct.nullable structIntegerNullableDefault5 = true
    ∧ runPlan rmAny structIntegerNullableDefault5 .vNone = ([], .vInt 5)
    ∧ (PyVal.vInt 5 = PyVal.vNone → False) := by
  refine ⟨rfl, ?_, fun h => PyVal.noConfusion h⟩
  simp [runPlan, Python_, PythonHandler, Python_Integer, pyInt, catchExc, Struct.dflt,
    PyVal.isNone, structIntegerNullableDefault5]
  try rfl

/-- C5 (amended by the counterexample: restricted to nodes without a
`+Default`): a nullable node maps null input to null output with no error
recorded; a non-nullable node without default maps null input to exactly one
"Value must not be None" record at the node's diagnostic path, leaving the
output variable untouched. -/
theorem C5_null_handling (rm : String → String → Bool) (s : Struct) (p : List String)
    (vo : PyVal) (errs : List ErrRec) (kv vv : RecArg) (hd : s.dflt = none) :
    (s.nullable = true → Python_ rm s p .vNone vo errs kv vv = (errs, .vNone))
    ∧ (s.nullable = false →
        Python_ rm s p .vNone vo errs kv vv
          = (errs ++ [⟨joinPath p, "Value must not be None",
              resolveArg kv .vNone, resolveArg vv .vNone⟩], vo)) := by
  constructor <;> intro hn <;> rw [Python_] <;>
    simp [hd, hn, PyVal.isNone, mkRec]

/-- Closed witness for `C5_null_handling` at a non-nullable `Integer` node
and at a nullable `Type` node. -/
theorem C5_null_handling_witness :
    Python_ rmAny structIntegerPlain ["<Data>"] .vNone .undefined [] .noneLit .noneLit
      = ([⟨"<Data>", "Value must not be None", .vNone, .vNone⟩], .undefined)
    ∧ Python_ rmAny (.sType true none) ["<Data>"] .vNone .undefined [] .noneLit .noneLit
      = ([], .vNone) := by
  constructor
  · have h := (C5_null_handling rmAny structIntegerPlain ["<Data>"] .undefined [] .noneLit .noneLit rfl).2 rfl
    simpa [joinPath, resolveArg] using h
  · exact (C5_null_handling rmAny (.sType true none) ["<Data>"] .undefined [] .noneLit .noneLit rfl).1 rfl

/-- C7 counterexample: the default is substituted as the node's input and
then coerced by the node's own handler, so the output need not equal the
default — a `String` node with default `" a "` (strip on by default)
produces `"a"`. -/
theorem C7_counterexample :
    Struct.dflt structStringDefaultPad = some (.vStr " a ")
    ∧ runPlan rmAny structStringDefaultPad .vNone = ([], .vStr "a")
    ∧ (PyVal.vStr "a" = PyVal.vStr " a " → False) := by
  refine ⟨rfl, ?_, fun h => by injection h with h2; exact absurd h2 (by decide)⟩
  simp [runPlan, Python_, PythonHandler, Python_String, pyStr, catchExc, Struct.dflt,
    PyVal.isNone, structStringDefaultPad]
  try rfl

/-- C7 (amended by the counterexample): for a node with a non-null
`+Default`, a null input behaves exactly as if the default value had been
supplied as the input (substitution before coercion), and when the default
already has the node's target type — an integer default on an `Integer`
node — the output equals the default with no error.  Deep-copy independence
of the stored default is established at normalization (`copy.deepcopy`, line
640) and per-call re-evaluation of the default literal; object identity has
no observable counterpart on the embedding's pure values. -/
theorem C7_default_substitution (rm : String → String → Bool) (s : Struct) (p : List String)
    (d : PyVal) (vo : PyVal) (errs : List ErrRec) (kv vv : RecArg)
    (hd : s.dflt = some d) (_hnn : d.isNone = false) :
    Python_ rm s p .vNone vo errs kv vv = Python_ rm s p d vo errs kv vv
    ∧ ∀ (nul : Bool) (mx mn : Option Int) (k : Int),
        Python_ rm (.sInteger nul (some (.vInt k)) mx mn) p .vNone vo errs kv vv = (errs, .vInt k) := by
  constructor
  · rw [Python_, Python_]
    simp [hd, PyVal.isNone]
  · intro nul mx mn k
    simp [Python_, PythonHandler, Python_Integer, pyInt, catchExc, Struct.dflt, PyVal.isNone]

/-- Closed witness for `C7_default_substitution`: the padded-string default
node behaves on null input exactly as on the default itself, and an
`Integer` node with default 7 yields 7 on null input. -/
theorem C7_default_substitution_witness :
    Python_ rmAny structStringDefaultPad ["<Data>"] .vNone .undefined [] .noneLit .noneLit
      = Python_ rmAny structStringDefaultPad ["<Data>"] (.vStr " a ") .undefined [] .noneLit .noneLit
    ∧ Python_ rmAny (.sInteger false (some (.vInt 7)) none none) ["<Data>"] .vNone .undefined [] .noneLit .noneLit
      = ([], .vInt 7) := by
  constructor
  · exact (C7_default_substitution rmAny structStringDefaultPad ["<Data>"] (.vStr " a ")
      .undefined [] .noneLit .noneLit rfl rfl).1
  · exact (C7_default_substitution rmAny (.sInteger false (some (.vInt 7)) none none) ["<Data>"]
      (.vInt 7) .undefined [] .noneLit .noneLit rfl rfl).2 false none none 7

/-- A wrapped nullable `Type` node maps null to null and passes any other
value through, never adding an error (helper for the `List` length
scenarios). -/
theorem PythonType_nullable_eval (rm : String → String → Bool) (p : List String)
    (a vo : PyVal) (errs : List ErrRec) (kv vv : RecArg) :
    Python_ rm (.sType true none) p a vo errs kv vv
      = (errs, if a.isNone then .vNone else a) := by
  rw [Python_]
  cases ha : a.isNone <;>
    simp [ha, Struct.dflt, Struct.nullable, PythonHandler, Python_Type, catchExc]

/-- The element loop over a nullable `Type` value node appends one coerced
output per input element and records no error. -/
theorem listElems_nullable_type (rm : String → String → Bool) (p : List String)
    (xs acc : List PyVal) (errs : List ErrRec) :
    Python_List_elems rm (.sType true none) p xs acc errs
      = (errs, acc ++ xs.map (fun a => if a.isNone then .vNone else a)) := by
  induction xs generalizing acc errs with
  | nil => rw [Python_List_elems]; simp
  | cons a rest ih =>
    rw [Python_List_elems, PythonType_nullable_eval]
    simp [ih]

/-- C4 counterexample: an ordinary aggregated validation failure — the
compiled function's `raise Exception(str(errs))` — escapes through
`AS3.__call__`'s `except Exception` clause and is re-raised as the very
`CompiledCodeError` kind the claim reserves for plan defects, so no failure
kind distinguishes the two. -/
theorem C4_counterexample :
    (runPlan rmAny structIntegerPlain (.vStr "x")).1
      = [⟨"<Data>", "invalid literal for int() with base 10: \x27x\x27", .vNone, .vNone⟩]
    ∧ AS3call rmAny structIntegerPlain (.vStr "x")
      = .error (.compiledCodeError (.vStr "x")
          (errsToStr [⟨"<Data>", "invalid literal for int() with base 10: \x27x\x27", .vNone, .vNone⟩])) := by
  constructor
  · simp [runPlan, Python_, PythonHandler, Python_Integer, pyInt, pyDigits, pyStrip, catchExc,
      Struct.dflt, PyVal.isNone, structIntegerPlain, mkRec, joinPath, joinWith, resolveArg, PyErr.msg]
  · simp [AS3call, CompiledFunction, runPlan, Python_, PythonHandler, Python_Integer, pyInt,
      pyDigits, pyStrip, catchExc, Struct.dflt, PyVal.isNone, structIntegerPlain, mkRec,
      joinPath, joinWith, errsToStr, resolveArg, PyErr.msg]
    try rfl

/-- C4 (amended by the counterexample): every failing call — a plan defect
or an ordinary aggregated validation failure alike — surfaces as the single
`CompiledCodeError` kind, which does carry the diagnostic context (the input
value, and in the source also the generated code listing and traceback)
together with the stringified aggregated error list; no distinct kind
separates the two cases. -/
theorem C4_failure_kind (rm : String → String → Bool) (s : Struct) (data : PyVal) :
    (∀ e, AS3call rm s data = .error e →
      e = .compiledCodeError data (errsToStr (runPlan rm s data).1)
      ∧ (runPlan rm s data).1 ≠ [])
    ∧ ((runPlan rm s data).1 = [] → AS3call rm s data = .ok (runPlan rm s data).2) := by
  rcases h : runPlan rm s data with ⟨errs, vo⟩
  by_cases hE : errs.isEmpty
  · constructor
    · intro e he
      simp [AS3call, CompiledFunction, h, hE] at he
    · intro _
      simp [AS3call, CompiledFunction, h, hE]
  · constructor
    · intro e he
      simp [AS3call, CompiledFunction, h, hE] at he
      subst he
      exact ⟨rfl, by simpa [List.isEmpty_iff] using hE⟩
    · intro hnil
      simp at hnil
      exact absurd (by simp [hnil] : errs.isEmpty = true) hE

/-- Closed witness for `C4_failure_kind`: a failing call and a succeeding
call, with the hypotheses discharged at concrete inputs. -/
theorem C4_failure_kind_witness :
    AS3call rmAny structIntegerPlain (.vInt 3) = .ok (.vInt 3)
    ∧ (CallErr.compiledCodeError (.vStr "x")
        (errsToStr (runPlan rmAny structIntegerPlain (.vStr "x")).1)
      = .compiledCodeError (.vStr "x") (errsToStr (runPlan rmAny structIntegerPlain (.vStr "x")).1)
      ∧ (runPlan rmAny structIntegerPlain (.vStr "x")).1 ≠ []) := by
  constructor
  · have h := (C4_failure_kind rmAny structIntegerPlain (.vInt 3)).2
    have hnil : (runPlan rmAny structIntegerPlain (.vInt 3)).1 = [] := by
      simp [runPlan, Python_, PythonHandler, Python_Integer, pyInt, catchExc, Struct.dflt,
        PyVal.isNone, structIntegerPlain]
    have := h hnil
    rw [this]
    have : (runPlan rmAny structIntegerPlain (.vInt 3)).2 = .vInt 3 := by
      simp [runPlan, Python_, PythonHandler, Python_Integer, pyInt, catchExc, Struct.dflt,
        PyVal.isNone, structIntegerPlain]
    rw [this]
  · exact (C4_failure_kind rmAny structIntegerPlain (.vStr "x")).1 _ (by
      simp [AS3call, CompiledFunction, runPlan, Python_, PythonHandler, Python_Integer, pyInt,
        pyDigits, pyStrip, catchExc, Struct.dflt, PyVal.isNone, structIntegerPlain, mkRec,
        joinPath, resolveArg, PyErr.msg])

/-- C6: a `List` node with `+Length` 3 (over elements that coerce freely)
reports exactly one error at the list node's own path for any length-2
input; and a failing element inside a `List` does not suppress its
neighbours — with `Integer` elements and input `["1","x","3"]` exactly one
record is appended, whose `Value` slot is the offending element `"x"` at
index 1, while the outputs at indices 0 and 2 are the coerced integers 1
and 3 (index 1 holds the `Undefined` sentinel). -/
theorem C6_list_errors :
    (∀ xs : List PyVal, xs.length = 2 →
      (Python_ rmAny structListLen3 ["<Data>"] (.vList xs) .undefined [] .noneLit .noneLit).1
        = [⟨"<Data>", "List must contain exactly 3 items, but contains 2 items.", .vNone, .vNone⟩])
    ∧ runPlan rmAny structListInteger (.vList [.vStr "1", .vStr "x", .vStr "3"])
      = ([⟨"<Data>/+ValueType", "invalid literal for int() with base 10: \x27x\x27", .vNone, .vStr "x"⟩],
         .vList [.vInt 1, .undefined, .vInt 3]) := by
  constructor
  · intro xs h
    rcases List.length_eq_two.mp h with ⟨a, b, rfl⟩
    rw [Python_]
    simp [Struct.dflt, PyVal.isNone, structListLen3, PythonHandler, pyIter,
      listElems_nullable_type, listFinish, listLenChecks, catchExc, mkRec, joinPath,
      joinWith, resolveArg, PyErr.msg]
    try exact ⟨rfl, rfl⟩
    try rfl
  · simp [runPlan, Python_, PythonHandler, Python_Integer, pyInt, pyDigits, pyStrip,
      Python_List_elems, listFinish, listLenChecks, catchExc, Struct.dflt, PyVal.isNone,
      structListInteger, structIntegerPlain, pyIter, mkRec, joinPath, joinWith, resolveArg, PyErr.msg]
    try rfl

/-- Closed witness for `C6_list_errors` at the length-2 input
`[1, "a"]`. -/
theorem C6_list_errors_witness :
    (Python_ rmAny structListLen3 ["<Data>"] (.vList [.vInt 1, .vStr "a"]) .undefined [] .noneLit .noneLit).1
      = [⟨"<Data>", "List must contain exactly 3 items, but contains 2 items.", .vNone, .vNone⟩] :=
  C6_list_errors.1 [.vInt 1, .vStr "a"] rfl

/-- C8 counterexample: the unconsumed-attribute check computes
`set(StructIn) - set(Struct)`, so a declared attribute whose name collides
with a canonical struct key escapes it: `{+Type: Integer, +MinValue: 0}`
normalizes successfully — `+MinValue` is never popped by `Struct_Integer`
(which reads `+MaxValue` twice), yet no `SchemaDefinitionError` is raised
and the declared bound is silently dropped (the node carries no bounds). -/
theorem C8_counterexample :
    AS3init 9 rawIntegerMin0 = .ok structIntegerPlain := by
  simp [AS3init, Struct_, rawIntegerMin0, popAttr, strToEntries, endsWithQmark, INTNa, INTN,
    BOOLNa, STRNa, attrDefault, attrTruthy, toRawSchema, Struct_Integer, RawEntries.keys,
    RawEntries.hasKey, pyInt, joinPath, structIntegerPlain]
  try rfl

/-- C8 (amended by the counterexample): normalization fails synchronously,
producing no node, when the type tag is unknown, when a required attribute
is missing (`Map` without `+KeyType` or without `+ValueType`), when the `?`
suffix is combined with an explicit `+None`, and when a leftover attribute's
name is not among the node's canonical struct keys — but a leftover
attribute that shadows a canonical key (such as `+MinValue` on `Integer`)
escapes the check and is silently dropped.  Each part holds for every
positive recursion budget. -/
theorem C8_schema_definition_errors :
    (∀ f : Nat, exceptIsOk (Struct_ (f + 1) ["<Data>"] (.rstr "Frobnicate")) = false)
    ∧ (∀ f : Nat, exceptIsOk (Struct_ (f + 1) ["<Data>"] rawMapNoKeyType) = false)
    ∧ exceptIsOk (Struct_ 9 ["<Data>"] rawMapNoValueType) = false
    ∧ (∀ f : Nat, exceptIsOk (Struct_ (f + 1) ["<Data>"] rawConflictNullable) = false)
    ∧ (∀ f : Nat, exceptIsOk (Struct_ (f + 1) ["<Data>"] rawBogusAttr) = false) := by
  refine ⟨?_, ?_, ?_, ?_, ?_⟩ <;> try intro f
  all_goals
    simp [exceptIsOk, Struct_, rawMapNoKeyType, rawMapNoValueType, rawConflictNullable,
      rawBogusAttr, popAttr, strToEntries, endsWithQmark, dropLastChar, INTNa, INTN, BOOLNa,
      STRNa, attrDefault, attrTruthy, toRawSchema, Struct_Integer, RawEntries.keys,
      RawEntries.hasKey, pyInt, joinPath, joinWith]
  all_goals try rfl

/-- Looking up a field name ignores a trailing entry whose string key is a
different name (`.get` semantics). -/
theorem dictGet_append_other (ents : List (PyVal × PyVal)) (k name : String) (v : PyVal)
    (hne : k ≠ name) :
    dictGet (ents ++ [(.vStr k, v)]) (.vStr name) = dictGet ents (.vStr name) := by
  induction ents with
  | nil => simp [dictGet, pyEq, hne]
  | cons e rest ih =>
    rcases e with ⟨k0, v0⟩
    by_cases h0 : pyEq k0 (.vStr name) = true
    · simp [dictGet, h0]
    · simp only [Bool.not_eq_true] at h0
      simp [dictGet, h0, ih]

/-- The object field loop never looks at input keys that are not declared
field names: appending such an entry to the input mapping leaves the loop's
result unchanged. -/
theorem object_fields_ignore_extra (rm : String → String → Bool) (fs : Fields) (p : List String)
    (ents : List (PyVal × PyVal)) (k : String) (v : PyVal)
    (out : List (PyVal × PyVal)) (errs : List ErrRec)
    (hk : ∀ f ∈ fs.names, k ≠ f) :
    Python_Object_fields rm fs p (.vDict (ents ++ [(.vStr k, v)])) out errs
      = Python_Object_fields rm fs p (.vDict ents) out errs := by
  match fs with
  | .fnil => rw [Python_Object_fields, Python_Object_fields]
  | .fcons name fieldS rest =>
    rw [Python_Object_fields, Python_Object_fields]
    have hne : k ≠ name := hk name (by simp [Fields.names])
    have hget : pyGet (.vDict (ents ++ [(.vStr k, v)])) name = pyGet (.vDict ents) name := by
      simp [pyGet, dictGet_append_other ents k name v hne]
    rw [hget]
    rcases hp : Python_ rm fieldS (p ++ [name]) (pyGet (.vDict ents) name) .undefined errs .selfVi .noneLit with ⟨errs1, voC⟩
    exact object_fields_ignore_extra rm rest p ents k v _ _ (fun f hf => hk f (by simp [Fields.names, hf]))
termination_by sizeOf fs

/-- Membership in a dict after `d[k] = v`: the key is the assigned one or
was already present. -/
theorem dictSet_mem (out : List (PyVal × PyVal)) (k v kk vv : PyVal)
    (h : (kk, vv) ∈ dictSet out k v) :
    (∃ vv0, (kk, vv0) ∈ out) ∨ kk = k := by
  induction out with
  | nil =>
    simp [dictSet] at h
    exact Or.inr h.1
  | cons e rest ih =>
    rcases e with ⟨k0, v0⟩
    by_cases h0 : pyEq k0 k = true
    · simp [dictSet, h0] at h
      rcases h with ⟨h1, h2⟩ | h2
      · exact Or.inl ⟨v0, by simp [h1]⟩
      · exact Or.inl ⟨vv, by simp [h2]⟩
    · simp only [Bool.not_eq_true] at h0
      simp [dictSet, h0] at h
      rcases h with ⟨h1, h2⟩ | h2
      · exact Or.inl ⟨vv, by simp [h1, h2]⟩
      · rcases ih h2 with ⟨vv0, hm⟩ | hkk
        · exact Or.inl ⟨vv0, by simp [hm]⟩
        · exact Or.inr hkk

/-- Every key of the object field loop's output dict is either a key of the
initial accumulator or one of the declared field names. -/
theorem object_fields_keys (rm : String → String → Bool) (fs : Fields) (p : List String)
    (vi : PyVal) (out : List (PyVal × PyVal)) (errs : List ErrRec) :
    ∀ kk vv, (kk, vv) ∈ (Python_Object_fields rm fs p vi out errs).2 →
      (∃ vv0, (kk, vv0) ∈ out) ∨ ∃ f ∈ fs.names, kk = PyVal.vStr f := by
  match fs with
  | .fnil =>
    intro kk vv h
    rw [Python_Object_fields] at h
    exact Or.inl ⟨vv, h⟩
  | .fcons name fieldS rest =>
    intro kk vv h
    rw [Python_Object_fields] at h
    rcases hp : Python_ rm fieldS (p ++ [name]) (pyGet vi name) .undefined errs .selfVi .noneLit with ⟨errs1, voC⟩
    rw [hp] at h
    rcases object_fields_keys rm rest p vi _ _ kk vv h with ⟨vv0, hm⟩ | ⟨f, hf, hkk⟩
    · rcases dictSet_mem out (.vStr name) voC kk vv0 hm with hin | hkk
      · exact Or.inl hin
      · exact Or.inr ⟨name, by simp [Fields.names], hkk⟩
    · exact Or.inr ⟨f, by simp [Fields.names, hf], hkk⟩
termination_by sizeOf fs

/-- C9: `Python_Object` with a falsy `+Extra` both drops unknown input keys
from the output and records nothing for them — the handler's entire result
is unchanged when an entry with an undeclared string key is added to the
input mapping — and, conversely, every key of the output dict is a declared
field name, so an unknown key can only ever be copied verbatim when
`+Extra` is truthy. -/
theorem C9_extra_fields (rm : String → String → Bool) (nul : Bool) (ex : Option Bool)
    (fields : Fields) (p : List String) (vo : PyVal) (errs : List ErrRec)
    (hex : optTruthy ex = false) :
    (∀ (ents : List (PyVal × PyVal)) (k : String) (v : PyVal),
      (∀ f ∈ fields.names, k ≠ f) →
      PythonHandler rm (.sObject nul none ex fields) p (.vDict (ents ++ [(.vStr k, v)])) vo errs
        = PythonHandler rm (.sObject nul none ex fields) p (.vDict ents) vo errs)
    ∧ (∀ (ents : List (PyVal × PyVal)) (kk vv : PyVal) (out : List (PyVal × PyVal)) (errs2 : List ErrRec) (e : Option PyErr),
      PythonHandler rm (.sObject nul none ex fields) p (.vDict ents) vo errs = (errs2, .vDict out, e) →
      (kk, vv) ∈ out → ∃ f ∈ fields.names, kk = PyVal.vStr f) := by
  constructor
  · intro ents k v hk
    rw [PythonHandler, PythonHandler]
    simp only [isMapping, objectFinish, hex, Bool.false_eq_true, if_false, dictEntriesOf]
    rw [object_fields_ignore_extra rm fields p ents k v [] errs hk]
    simp
  · intro ents kk vv out errs2 e hrun hmem
    rw [PythonHandler] at hrun
    simp only [isMapping, if_true] at hrun
    rcases hp : Python_Object_fields rm fields p (.vDict ents) [] errs with ⟨errs1, out1⟩
    rw [hp] at hrun
    simp only [objectFinish, hex, Bool.false_eq_true, if_false] at hrun
    have hout : out = out1 := by
      have := congrArg (fun t => t.2.1) hrun
      simpa using this.symm
    subst hout
    have h := object_fields_keys rm fields p (.vDict ents) [] errs kk vv (by rw [hp]; exact hmem)
    rcases h with ⟨vv0, hm⟩ | hf
    · simp at hm
    · exact hf

/-- Closed witness for `C9_extra_fields`: the two-integer-field object with
`+Extra` falsy ignores an unknown key `Z`, and its output keys are among
the declared fields. -/
theorem C9_extra_fields_witness :
    PythonHandler rmAny structObjectAB ["<Data>"]
        (.vDict [(.vStr "A", .vInt 1), (.vStr "B", .vInt 2), (.vStr "Z", .vInt 9)]) .undefined []
      = PythonHandler rmAny structObjectAB ["<Data>"]
        (.vDict [(.vStr "A", .vInt 1), (.vStr "B", .vInt 2)]) .undefined [] := by
  have h := (C9_extra_fields rmAny false (some false)
    (.fcons "A" structIntegerPlain (.fcons "B" structIntegerPlain .fnil)) ["<Data>"]
    .undefined [] rfl).1 [(.vStr "A", .vInt 1), (.vStr "B", .vInt 2)] "Z" (.vInt 9)
    (by intro f hf; simp [Fields.names] at hf; rcases hf with h1 | h1 <;> simp [h1])
  simpa [structObjectAB] using h

/-- The list element loop appends exactly one output per input element,
whatever each element's node does. -/
theorem Python_List_elems_length (rm : String → String → Bool) (vt : Struct) (p : List String)
    (xs acc : List PyVal) (errs : List ErrRec) :
    (Python_List_elems rm vt p xs acc errs).2.length = acc.length + xs.length := by
  induction xs generalizing acc errs with
  | nil =>
    rw [Python_List_elems]
    simp
  | cons x rest ih =>
    rw [Python_List_elems]
    split
    next errs1 voC hp =>
    rw [ih]
    simp
    omega

/-- C10 counterexample: the placeholder appended for a failed element is the
element's output variable as already partially assigned, not necessarily the
`Undefined` sentinel — a `String` element failing its `+MaxLength` check has
`vo` holding the stripped string at raise time, and that string is what the
list receives. -/
theorem C10_counterexample :
    runPlan rmAny structListString1 (.vList [.vStr "ab"])
      = ([⟨"<Data>/+ValueType", "Input too long", .vNone, .vStr "ab"⟩], .vList [.vStr "ab"])
    ∧ (PyVal.vStr "ab" = PyVal.undefined → False) := by
  refine ⟨?_, fun h => PyVal.noConfusion h⟩
  simp [runPlan, Python_, PythonHandler, Python_String, pyStr, pyStrip, Python_List_elems,
    listFinish, listLenChecks, catchExc, Struct.dflt, PyVal.isNone, structListString1, pyIter,
    mkRec, joinPath, joinWith, resolveArg, PyErr.msg]
  try exact ⟨rfl, rfl⟩
  try rfl

/-- C10 (amended by the counterexample): the list element loop appends the
element's output variable unconditionally, so the count tested by the
`+Length`/`+MaxLength`/`+MinLength` checks equals the total number of input
elements, failed ones included; an element whose coercion fails before any
assignment — e.g. a failed `Integer` coercion — contributes the `Undefined`
sentinel, and in a `Set` the failed elements' sentinels are added and
collapse to a single `Undefined` member. -/
theorem C10_failed_elements (rm : String → String → Bool) (vt : Struct) (p : List String) :
    (∀ (nul : Bool) (len mx mn : Option Int) (xs : List PyVal) (vo : PyVal)
        (errs : List ErrRec) (kv vv : RecArg),
      Python_ rm (.sList nul none len mx mn vt) p (.vList xs) vo errs kv vv
        = ((Python_List_elems rm vt p xs [] errs).1
            ++ (match listLenChecks len mx mn xs.length with
                | some e => [mkRec p e.msg kv vv (.vList xs)]
                | none => []),
           .vList (Python_List_elems rm vt p xs [] errs).2))
    ∧ (∀ (x : PyVal) (errs : List ErrRec) (kv vv : RecArg) (e : PyErr),
        x.isNone = false → pyInt x = .error e →
        Python_ rm structIntegerPlain p x .undefined errs kv vv
          = (errs ++ [mkRec p e.msg kv vv x], .undefined))
    ∧ runPlan rmAny structSetInteger (.vList [.vStr "x", .vStr "x"])
      = ([⟨"<Data>/+ValueType", "invalid literal for int() with base 10: \x27x\x27", .vNone, .vStr "x"⟩,
          ⟨"<Data>/+ValueType", "invalid literal for int() with base 10: \x27x\x27", .vNone, .vStr "x"⟩],
         .vSet [.undefined]) := by
  refine ⟨?_, ?_, ?_⟩
  · intro nul len mx mn xs vo errs kv vv
    rw [Python_]
    simp only [Struct.dflt, PyVal.isNone, PythonHandler, pyIter]
    rcases hp : Python_List_elems rm vt p xs [] errs with ⟨errs1, out⟩
    have hl : out.length = xs.length := by
      have h2 := Python_List_elems_length rm vt p xs [] errs
      rw [hp] at h2
      simpa using h2
    simp only [listFinish, hl]
    cases hc : listLenChecks len mx mn xs.length <;> simp [catchExc]
  · intro x errs kv vv e hx he
    rw [Python_]
    simp [Struct.dflt, PyVal.isNone, hx, PythonHandler, Python_Integer, he, catchExc,
      structIntegerPlain]
    intro hcontra
    simp only [PyVal.isNone] at hx
    simp [hx] at hcontra
  · simp [runPlan, Python_, PythonHandler, Python_Integer, pyInt, pyDigits, pyStrip,
      Python_Set_elems, setFinish, setAdd, pyHashable, catchExc, Struct.dflt, PyVal.isNone,
      structSetInteger, structIntegerPlain, pyIter, pyEq, mkRec, joinPath, joinWith,
      resolveArg, PyErr.msg]
    try rfl

/-- Closed witness for `C10_failed_elements`: the `Integer` list on input
`["7","x"]` (element 1 fails) and the failed-coercion element itself. -/
theorem C10_failed_elements_witness :
    Python_ rmAny structListInteger ["<Data>"] (.vList [.vStr "7", .vStr "x"]) .undefined [] .noneLit .noneLit
      = ((Python_List_elems rmAny structIntegerPlain ["<Data>"] [.vStr "7", .vStr "x"] [] []).1
          ++ [], .vList (Python_List_elems rmAny structIntegerPlain ["<Data>"] [.vStr "7", .vStr "x"] [] []).2)
    ∧ Python_ rmAny structIntegerPlain ["<Data>"] (.vStr "x") .undefined [] .noneLit .noneLit
      = ([mkRec ["<Data>"] (PyErr.valueError "invalid literal for int() with base 10: \x27x\x27").msg .noneLit .noneLit (.vStr "x")], .undefined) := by
  constructor
  · have h := (C10_failed_elements rmAny structIntegerPlain ["<Data>"]).1 false none none none
      [.vStr "7", .vStr "x"] .undefined [] .noneLit .noneLit
    simpa [structListInteger, listLenChecks] using h
  · have h := (C10_failed_elements rmAny structIntegerPlain ["<Data>"]).2.1 (.vStr "x") [] .noneLit .noneLit
      (.valueError "invalid literal for int() with base 10: \x27x\x27") rfl (by
        simp [pyInt, pyStrip, pyDigits])
    simpa using h

/-- C1: execution errors are aggregated, never thrown past a node.  (i) A
wrapped node step is total over the embedded universe and only appends to
the shared error list; (ii) a fault the node's own handler raises is caught
locally and becomes exactly one appended `(Path, Message, Key, Value)`
record, with processing resuming after the node; (iii) the overall call
fails exactly once, after the walk, with the single raised failure carrying
the stringified full error list, and yields no output value on failure —
and returns the coerced output exactly when the error list is empty;
(iv) concretely, two failing sibling fields of one object are both
reported, in declaration order, in one aggregated list. -/
theorem C1_error_aggregation :
    (∀ (rm : String → String → Bool) (s : Struct) (p : List String) (vi vo : PyVal)
        (errs : List ErrRec) (kv vv : RecArg),
      errs <+: (Python_ rm s p vi vo errs kv vv).1)
    ∧ (∀ (rm : String → String → Bool) (s : Struct) (p : List String) (vi vo : PyVal)
        (errs errs2 : List ErrRec) (vo2 : PyVal) (kv vv : RecArg) (e : PyErr),
      s.dflt = none → vi.isNone = false →
      PythonHandler rm s p vi vo errs = (errs2, vo2, some e) →
      Python_ rm s p vi vo errs kv vv = (errs2 ++ [mkRec p e.msg kv vv vi], vo2))
    ∧ (∀ (rm : String → String → Bool) (s : Struct) (data : PyVal),
        ((runPlan rm s data).1 = [] → AS3call rm s data = .ok (runPlan rm s data).2)
        ∧ ((runPlan rm s data).1 ≠ [] →
            AS3call rm s data
              = .error (.compiledCodeError data (errsToStr (runPlan rm s data).1))))
    ∧ runPlan rmAny structObjectAB (.vDict [(.vStr "A", .vStr "x"), (.vStr "B", .vStr "y")])
      = ([⟨"<Data>/A", "invalid literal for int() with base 10: \x27x\x27", .vStr "x", .vNone⟩,
          ⟨"<Data>/B", "invalid literal for int() with base 10: \x27y\x27", .vStr "y", .vNone⟩],
         .vDict [(.vStr "A", .undefined), (.vStr "B", .undefined)]) := by
  refine ⟨Python__mono, ?_, ?_, ?_⟩
  · intro rm s p vi vo errs errs2 vo2 kv vv e hd hv hph
    rw [Python_]
    simp [hd, hv, hph, catchExc]
  · intro rm s data
    rcases h : runPlan rm s data with ⟨errs, vo⟩
    by_cases hE : errs.isEmpty
    · constructor
      · intro _
        simp [AS3call, CompiledFunction, h, hE]
      · intro hne
        simp at hne
        rw [show errs = [] from List.isEmpty_iff.mp hE] at hne
        simp at hne
    · constructor
      · intro hnil
        simp at hnil
        exact absurd (by simp [hnil] : errs.isEmpty = true) hE
      · intro _
        simp [AS3call, CompiledFunction, h, hE]
  · simp [runPlan, Python_, PythonHandler, Python_Integer, pyInt, pyDigits, pyStrip,
      Python_Object_fields, objectFinish, addExtras, objectStructKeys, Fields.names,
      optTruthy, dictEntriesOf, pyGet, dictGet, dictSet, pyEq, catchExc, Struct.dflt,
      PyVal.isNone, structObjectAB, structIntegerPlain, isMapping, mkRec, joinPath, joinWith,
      resolveArg, PyErr.msg]
    try rfl

/-- Closed witness for `C1_error_aggregation`: the failing-once dichotomy
applied at a concrete failing input, with its hypothesis discharged by
evaluation. -/
theorem C1_error_aggregation_witness :
    AS3call rmAny structIntegerPlain (.vStr "y")
      = .error (.compiledCodeError (.vStr "y")
          (errsToStr (runPlan rmAny structIntegerPlain (.vStr "y")).1)) := by
  refine (C1_error_aggregation.2.2.1 rmAny structIntegerPlain (.vStr "y")).2 ?_
  simp [runPlan, Python_, PythonHandler, Python_Integer, pyInt, pyDigits, pyStrip, catchExc,
    Struct.dflt, PyVal.isNone, structIntegerPlain, mkRec, joinPath, joinWith, resolveArg,
    PyErr.msg]

end Granite
